import Mathlib

/-!
Verification development for the `SolanaConnectionService` of DISCOINT/DI-COINT
(`src/SolanaService.ts`).

The service is a thin wrapper around the Solana web3 / spl-token SDK.  We give
a shallow embedding: the SDK's cryptography (ed25519 key derivation, base58
coding) is an abstract `Crypto` record, the remote chain is an oracle
`ChainEnv` answering each RPC call, the local filesystem is a map from paths
to JSON values, and each service method is a Lean function producing its
result, the trace of SDK calls it made, and the service object's fields after
the call.  Errors thrown in TypeScript are modelled by `Except ServiceError`:
`ServiceError.sdk` is an error object coming from (or re-thrown unchanged
from) the wrapped SDK, `ServiceError.http` is one of the literal
`\x7bmessage, status\x7d` objects the service itself constructs.
-/

namespace DICoint

/-- Byte sequences (JS `Uint8Array` contents / key material) as lists of
naturals; a genuine `Uint8Array` holds values below 256. -/
abbrev Bytes := List Nat

/-- `new Uint8Array(l)`: JavaScript coerces each element to an 8-bit value. -/
def toUint8Array (l : List Nat) : Bytes := l.map (fun b => b % 256)

/-- An error object thrown by the wrapped SDK (a JS `Error`: it carries a
message but no HTTP status). -/
structure SdkError where
  message : String
deriving DecidableEq, Repr

/-- An error surfacing from a service operation: either an SDK error
propagated unchanged, or a literal `\x7bmessage, status\x7d` object built by the
service code itself. -/
inductive ServiceError where
  | sdk (e : SdkError)
  | http (message : String) (status : Nat)
deriving DecidableEq, Repr

/-- The cryptographic primitives the service delegates to the SDK:
ed25519 public-key derivation from a 32-byte seed, and base58 coding
(`bs58.encode` / `bs58.decode`; decode is partial since `bs58` throws on
characters outside its alphabet). -/
structure Crypto where
  derive : Bytes → Bytes
  b58encode : Bytes → String
  b58decode : String → Option Bytes

/-- `web3.Keypair`: a 64-byte secret key, seed followed by public key. -/
structure Keypair where
  secretKey : Bytes
deriving DecidableEq, Repr

/-- `keypair.publicKey`: the last 32 bytes of the 64-byte secret key. -/
def Keypair.publicKey (kp : Keypair) : Bytes := kp.secretKey.drop 32

/-- `web3.Keypair.generate()`, with the randomness (the fresh 32-byte seed
drawn by the SDK for this call) passed in explicitly. -/
def Keypair.generate (c : Crypto) (seed : Bytes) : Keypair :=
  ⟨seed ++ c.derive seed⟩

/-- `web3.Keypair.fromSecretKey(bytes)`: succeeds when `bytes` is a 64-byte
array whose trailing 32 bytes are the public key derived from the leading
32-byte seed; otherwise the SDK throws (modelled as `none`). -/
def Keypair.fromSecretKey (c : Crypto) (bytes : Bytes) : Option Keypair :=
  if bytes.length = 64 ∧ bytes.drop 32 = c.derive (bytes.take 32) then some ⟨bytes⟩
  else none

/-- `new web3.PublicKey(s)` on a base58 string: decodes and requires exactly
32 bytes, throwing otherwise (modelled as `none`). -/
def pubKeyFromBase58 (c : Crypto) (s : String) : Option Bytes :=
  match c.b58decode s with
  | some b => if b.length = 32 then some b else none
  | none => none

/-- JSON values, for the wallet credential file. -/
inductive Json where
  | num (n : Nat)
  | str (s : String)
  | arr (elems : List Json)
  | obj (fields : List (String × Json))
deriving Repr

/-- Field access `j.key` on a parsed JSON object. -/
def Json.lookup : Json → String → Option Json
  | .obj fields, key => fields.lookup key
  | _, _ => none

/-- Reads a JSON array of numbers as a byte list; any other shape is not
usable key material (feeding it to `Uint8Array`/`fromSecretKey` makes the
load fail, so we model it as a load failure). -/
def Json.asBytesAux : List Json → Option Bytes
  | [] => some []
  | .num n :: rest => (Json.asBytesAux rest).map (fun l => n :: l)
  | _ :: _ => none

def Json.asBytes : Json → Option Bytes
  | .arr elems => Json.asBytesAux elems
  | _ => none

/-- The object `\x7b privateKey: Array.from(wallet.secretKey) \x7d` that
`_getOrCreateWallet` serialises into `solWallet.json`. -/
def walletJsonEncode (kp : Keypair) : Json :=
  .obj [("privateKey", .arr (kp.secretKey.map Json.num))]

/-- The load path of `_getOrCreateWallet`:
`Keypair.fromSecretKey(new Uint8Array(JSON.parse(file).privateKey))`. -/
def loadWalletJson (c : Crypto) (j : Json) : Option Keypair :=
  match (j.lookup "privateKey").bind Json.asBytes with
  | some bytes => Keypair.fromSecretKey c (toUint8Array bytes)
  | none => none

/-- The local filesystem, as a map from paths to (parsed) file contents. -/
def Fs := String → Option Json

/-- `_getOrCreateWallet`: if the wallet file exists, parse it and rebuild the
keypair (any failure on this path is caught and re-thrown as a
message/status-500 object); otherwise generate a fresh keypair, persist it as
JSON, and return it. -/
def getOrCreateWallet (c : Crypto) (path : String) (fs : Fs) (seed : Bytes) :
    Except ServiceError (Keypair × Fs) :=
  match fs path with
  | some j =>
      match loadWalletJson c j with
      | some kp => .ok (kp, fs)
      | none =>
          .error (.http "Error reading or creating solana wallet: invalid wallet data" 500)
  | none =>
      let kp := Keypair.generate c seed
      .ok (kp, fun p => if p = path then some (walletJsonEncode kp) else fs p)

/-- The service object's fields, as set by the constructor. -/
structure Service where
  connectionUrl : String
  commitment : String
  walletFilePath : String
  mainNet : Bool
  wallet : Keypair
deriving DecidableEq, Repr

/-- The `SolanaConnectionService` constructor: devnet connection with
confirmed commitment, `mainNet = false`, wallet file `solWallet.json`, and
the custodial wallet from `_getOrCreateWallet`. -/
def mkService (c : Crypto) (fs : Fs) (seed : Bytes) :
    Except ServiceError (Service × Fs) :=
  match getOrCreateWallet c "solWallet.json" fs seed with
  | .ok (kp, fs') =>
      .ok ({ connectionUrl := "devnet", commitment := "confirmed",
             walletFilePath := "solWallet.json", mainNet := false, wallet := kp }, fs')
  | .error e => .error e

/-- `createWallet()`: generates a fresh keypair and returns the base58
encodings of its secret key and address (`seed` is the call's randomness). -/
def createWallet (c : Crypto) (seed : Bytes) : String × String :=
  let walletBase := Keypair.generate c seed
  (c.b58encode walletBase.secretKey, c.b58encode walletBase.publicKey)

/-! ## The chain-facing SDK surface -/

/-- `TYPE_SIZE` from spl-token (metadata-extension type field, 2 bytes). -/
def TYPE_SIZE : Nat := 2

/-- `LENGTH_SIZE` from spl-token (metadata-extension length field, 2 bytes). -/
def LENGTH_SIZE : Nat := 2

/-- The Token-2022 program id (an SDK constant; modelled as a fixed 32-byte
address). -/
def TOKEN_2022_PROGRAM_ID : Bytes := List.replicate 31 0 ++ [22]

/-- The `TokenMetadata` record built in `deployTokenContract`. -/
structure TokenMetadata where
  updateAuthority : Bytes
  mint : Bytes
  name : String
  symbol : String
  uri : String
  additionalMetadata : List (String × String)
deriving DecidableEq, Repr

/-- The instructions `deployTokenContract` assembles (each records exactly
the arguments the source passes to the corresponding SDK builder). -/
inductive Instruction where
  | createAccount (fromPubkey newAccountPubkey : Bytes) (space lamports : Nat)
      (programId : Bytes)
  | initializeMetadataPointer (mint authority metadataAddress programId : Bytes)
  | initializeMint (mint : Bytes) (decimals : Nat)
      (mintAuthority freezeAuthority programId : Bytes)
  | initializeMetadata (programId metadata updateAuthority mint mintAuthority : Bytes)
      (name symbol uri : String)
  | updateField (programId metadata updateAuthority : Bytes) (field value : String)
deriving DecidableEq, Repr

/-- `new web3.Transaction().add(...)`. -/
structure Transaction where
  instructions : List Instruction
deriving DecidableEq, Repr

/-- The part of `getMint`'s answer the service uses. -/
structure MintInfo where
  decimals : Nat
deriving DecidableEq, Repr

/-- The part of `getOrCreateAssociatedTokenAccount`'s answer the service
uses. -/
structure TokenAccount where
  address : Bytes
deriving DecidableEq, Repr

/-- One decoded Token-2022 account (`AccountLayout.decode`): its mint and its
raw amount in base units. -/
structure AccountData where
  mint : Bytes
  amount : Nat
deriving DecidableEq, Repr

/-- One SDK call made by a service operation, with the arguments passed. -/
inductive Event where
  | getMinimumBalanceForRentExemption (size : Nat)
  | sendAndConfirmTransaction (tx : Transaction) (signers : List Keypair)
  | getMint (mint : Bytes)
  | getOrCreateAssociatedTokenAccount (payer : Keypair) (mint owner : Bytes)
  | mintTo (mint destination authority : Bytes) (amount : Nat) (signers : List Keypair)
  | burn (account mint : Bytes) (owner : Keypair) (amount : Nat) (signers : List Keypair)
  | transfer (source destination owner : Bytes) (amount : Nat) (signers : List Keypair)
  | getBalance (pubkey : Bytes)
  | confirmTransaction (signature commitment : String)
  | getTokenAccountsByOwner (owner programId : Bytes)
deriving DecidableEq, Repr

/-- The remote chain and SDK, as an oracle answering each call the service
makes (each answer is a success value or a thrown SDK error). -/
structure ChainEnv where
  minimumBalanceForRentExemption : Nat → Except SdkError Nat
  sendTransaction : Transaction → List Keypair → Except SdkError String
  getMint : Bytes → Except SdkError MintInfo
  getOrCreateAssociatedTokenAccount : Keypair → Bytes → Bytes → Except SdkError TokenAccount
  mintTo : Bytes → Bytes → Bytes → Nat → List Keypair → Except SdkError String
  burnCall : Bytes → Bytes → Keypair → Nat → List Keypair → Except SdkError String
  transferCall : Bytes → Bytes → Bytes → Nat → List Keypair → Except SdkError String
  getBalance : Bytes → Except SdkError Nat
  confirmTransaction : String → String → Except SdkError Unit
  getTokenAccountsByOwner : Bytes → Bytes → Except SdkError (List AccountData)
  packLen : TokenMetadata → Nat
  mintLenMetadataPointer : Nat

/-- What one method call produces: the returned value or thrown error, the
trace of SDK calls made (in order), and the service object's fields when the
call ends. -/
structure OpResult (α : Type) where
  result : Except ServiceError α
  trace : List Event
  self : Service
deriving Repr

/-- The SDK error `new web3.PublicKey(...)` throws on bad input. -/
def invalidPublicKeyError : SdkError := ⟨"Invalid public key input"⟩

/-- The SDK error `bs58.decode` throws on a character outside its alphabet. -/
def nonBase58Error : SdkError := ⟨"Non-base58 character"⟩

/-- `deployTokenContract(tokenName, tokenSymbol, image)` (`mintSeed` is the
randomness of this call's `Keypair.generate()`): builds the five-instruction
transaction and submits it with `sendAndConfirmTransaction`; there is no
try/catch, so SDK errors propagate unchanged. -/
def deployTokenContract (c : Crypto) (env : ChainEnv) (s : Service)
    (tokenName tokenSymbol image : String) (mintSeed : Bytes) : OpResult String :=
  let mintKeypair := Keypair.generate c mintSeed
  let mint := mintKeypair.publicKey
  let decimals := 9
  let metaData : TokenMetadata :=
    { updateAuthority := s.wallet.publicKey, mint := mint, name := tokenName,
      symbol := tokenSymbol, uri := image,
      additionalMetadata := [("description", "Only Possible On Solana")] }
  let metadataExtension := TYPE_SIZE + LENGTH_SIZE
  let metadataLen := env.packLen metaData
  let mintLen := env.mintLenMetadataPointer
  let rentSize := mintLen + metadataExtension + metadataLen
  match env.minimumBalanceForRentExemption rentSize with
  | .error e => ⟨.error (.sdk e), [.getMinimumBalanceForRentExemption rentSize], s⟩
  | .ok lamports =>
    let createAccountInstruction :=
      Instruction.createAccount s.wallet.publicKey mint mintLen lamports TOKEN_2022_PROGRAM_ID
    let initializeMetadataPointerInstruction :=
      Instruction.initializeMetadataPointer mint s.wallet.publicKey mint TOKEN_2022_PROGRAM_ID
    let initializeMintInstruction :=
      Instruction.initializeMint mint decimals s.wallet.publicKey s.wallet.publicKey
        TOKEN_2022_PROGRAM_ID
    let initializeMetadataInstruction :=
      Instruction.initializeMetadata TOKEN_2022_PROGRAM_ID mint s.wallet.publicKey mint
        s.wallet.publicKey metaData.name metaData.symbol metaData.uri
    let fieldKV := metaData.additionalMetadata.getD 0 ("", "")
    let updateFieldInstruction :=
      Instruction.updateField TOKEN_2022_PROGRAM_ID mint s.wallet.publicKey fieldKV.1 fieldKV.2
    let transaction : Transaction :=
      ⟨[createAccountInstruction, initializeMetadataPointerInstruction,
        initializeMintInstruction, initializeMetadataInstruction, updateFieldInstruction]⟩
    match env.sendTransaction transaction [s.wallet, mintKeypair] with
    | .error e =>
        ⟨.error (.sdk e),
         [.getMinimumBalanceForRentExemption rentSize,
          .sendAndConfirmTransaction transaction [s.wallet, mintKeypair]], s⟩
    | .ok _sig =>
        ⟨.ok (c.b58encode mint),
         [.getMinimumBalanceForRentExemption rentSize,
          .sendAndConfirmTransaction transaction [s.wallet, mintKeypair]], s⟩

/-- `getVaultWalletAddress()`. -/
def getVaultWalletAddress (c : Crypto) (s : Service) : String :=
  c.b58encode s.wallet.publicKey

/-- `getTokenInstanceAndDecimals(token_address)`: parses the address, fetches
mint info, and returns the contract key with its decimals; the catch re-throws
the original error. -/
def getTokenInstanceAndDecimals (c : Crypto) (env : ChainEnv) (s : Service)
    (token_address : String) : OpResult (Bytes × Nat) :=
  match pubKeyFromBase58 c token_address with
  | none => ⟨.error (.sdk invalidPublicKeyError), [], s⟩
  | some mint =>
    match env.getMint mint with
    | .error e => ⟨.error (.sdk e), [.getMint mint], s⟩
    | .ok mintInfo => ⟨.ok (mint, mintInfo.decimals), [.getMint mint], s⟩

/-- `getSolBalance()`: the custodial wallet's lamport balance; the catch
re-throws the original error. -/
def getSolBalance (env : ChainEnv) (s : Service) : OpResult Nat :=
  match env.getBalance s.wallet.publicKey with
  | .error e => ⟨.error (.sdk e), [.getBalance s.wallet.publicKey], s⟩
  | .ok n => ⟨.ok n, [.getBalance s.wallet.publicKey], s⟩

/-- `mintTokensToUser(tokenAddress, toAddress, amount)`: resolves the
recipient's associated token account, scales the amount by the mint's
decimals, mints, and waits for finalization; the catch re-throws the original
error. -/
def mintTokensToUser (c : Crypto) (env : ChainEnv) (s : Service)
    (tokenAddress toAddress : String) (amount : Nat) : OpResult String :=
  match pubKeyFromBase58 c tokenAddress with
  | none => ⟨.error (.sdk invalidPublicKeyError), [], s⟩
  | some mint =>
  match pubKeyFromBase58 c toAddress with
  | none => ⟨.error (.sdk invalidPublicKeyError), [], s⟩
  | some toPub =>
  match env.getOrCreateAssociatedTokenAccount s.wallet mint toPub with
  | .error e => ⟨.error (.sdk e), [.getOrCreateAssociatedTokenAccount s.wallet mint toPub], s⟩
  | .ok tokenAccount =>
  match env.getMint mint with
  | .error e =>
      ⟨.error (.sdk e),
       [.getOrCreateAssociatedTokenAccount s.wallet mint toPub, .getMint mint], s⟩
  | .ok mintInfo =>
    let adjustedAmount := amount * 10 ^ mintInfo.decimals
    match env.mintTo mint tokenAccount.address s.wallet.publicKey adjustedAmount [s.wallet] with
    | .error e =>
        ⟨.error (.sdk e),
         [.getOrCreateAssociatedTokenAccount s.wallet mint toPub, .getMint mint,
          .mintTo mint tokenAccount.address s.wallet.publicKey adjustedAmount [s.wallet]], s⟩
    | .ok tx =>
      match env.confirmTransaction tx "finalized" with
      | .error e =>
          ⟨.error (.sdk e),
           [.getOrCreateAssociatedTokenAccount s.wallet mint toPub, .getMint mint,
            .mintTo mint tokenAccount.address s.wallet.publicKey adjustedAmount [s.wallet],
            .confirmTransaction tx "finalized"], s⟩
      | .ok _ =>
          ⟨.ok tx,
           [.getOrCreateAssociatedTokenAccount s.wallet mint toPub, .getMint mint,
            .mintTo mint tokenAccount.address s.wallet.publicKey adjustedAmount [s.wallet],
            .confirmTransaction tx "finalized"], s⟩

/-- `burnTokensFromUser(tokenAddress, wallet, amount)`: decodes the user's
secret key (an invalid key throws a message/status-400 object before any
further SDK call), resolves the user's token account, scales the amount by
the mint's decimals, burns, and waits for finalization; the outer catch
re-throws the original error unchanged. -/
def burnTokensFromUser (c : Crypto) (env : ChainEnv) (s : Service)
    (tokenAddress wallet : String) (amount : Nat) : OpResult String :=
  match c.b58decode wallet with
  | none => ⟨.error (.sdk nonBase58Error), [], s⟩
  | some walletSecretKey =>
  match pubKeyFromBase58 c tokenAddress with
  | none => ⟨.error (.sdk invalidPublicKeyError), [], s⟩
  | some mint =>
  match Keypair.fromSecretKey c (toUint8Array walletSecretKey) with
  | none => ⟨.error (.http "Invalid secret key provided for burnTokensFromUser" 400), [], s⟩
  | some userWallet =>
  match env.getOrCreateAssociatedTokenAccount s.wallet mint userWallet.publicKey with
  | .error e =>
      ⟨.error (.sdk e),
       [.getOrCreateAssociatedTokenAccount s.wallet mint userWallet.publicKey], s⟩
  | .ok tokenAccount =>
  match env.getMint mint with
  | .error e =>
      ⟨.error (.sdk e),
       [.getOrCreateAssociatedTokenAccount s.wallet mint userWallet.publicKey,
        .getMint mint], s⟩
  | .ok mintInfo =>
    let adjustedAmount := amount * 10 ^ mintInfo.decimals
    match env.burnCall tokenAccount.address mint userWallet adjustedAmount [userWallet] with
    | .error e =>
        ⟨.error (.sdk e),
         [.getOrCreateAssociatedTokenAccount s.wallet mint userWallet.publicKey,
          .getMint mint,
          .burn tokenAccount.address mint userWallet adjustedAmount [userWallet]], s⟩
    | .ok tx =>
      match env.confirmTransaction tx "finalized" with
      | .error e =>
          ⟨.error (.sdk e),
           [.getOrCreateAssociatedTokenAccount s.wallet mint userWallet.publicKey,
            .getMint mint,
            .burn tokenAccount.address mint userWallet adjustedAmount [userWallet],
            .confirmTransaction tx "finalized"], s⟩
      | .ok _ =>
          ⟨.ok tx,
           [.getOrCreateAssociatedTokenAccount s.wallet mint userWallet.publicKey,
            .getMint mint,
            .burn tokenAccount.address mint userWallet adjustedAmount [userWallet],
            .confirmTransaction tx "finalized"], s⟩

/-- `getWalletTokenBalance(address)`: lists the Token-2022 accounts owned by
the address and pairs each mint's base58 address with the account's raw
amount; there is no try/catch. -/
def getWalletTokenBalance (c : Crypto) (env : ChainEnv) (s : Service)
    (address : String) : OpResult (List (String × Nat)) :=
  match pubKeyFromBase58 c address with
  | none => ⟨.error (.sdk invalidPublicKeyError), [], s⟩
  | some owner =>
  match env.getTokenAccountsByOwner owner TOKEN_2022_PROGRAM_ID with
  | .error e => ⟨.error (.sdk e), [.getTokenAccountsByOwner owner TOKEN_2022_PROGRAM_ID], s⟩
  | .ok tokenAccounts =>
      ⟨.ok (tokenAccounts.map fun a => (c.b58encode a.mint, a.amount)),
       [.getTokenAccountsByOwner owner TOKEN_2022_PROGRAM_ID], s⟩

/-- `transferTokens(tokenAddress, to, amount, wallet)`: decodes the user's
secret key (an invalid key throws a message/status-400 object before
anything else), resolves both token accounts, scales the amount by the
mint's decimals, transfers, and waits for finalization; the catch re-throws
the original error unchanged. -/
def transferTokens (c : Crypto) (env : ChainEnv) (s : Service)
    (tokenAddress toAddress : String) (amount : Nat) (wallet : String) : OpResult String :=
  match c.b58decode wallet with
  | none => ⟨.error (.sdk nonBase58Error), [], s⟩
  | some walletSecretKey =>
  match Keypair.fromSecretKey c (toUint8Array walletSecretKey) with
  | none => ⟨.error (.http "Invalid secret key provided for transferTokens" 400), [], s⟩
  | some userWallet =>
  match pubKeyFromBase58 c tokenAddress with
  | none => ⟨.error (.sdk invalidPublicKeyError), [], s⟩
  | some mint =>
  match pubKeyFromBase58 c toAddress with
  | none => ⟨.error (.sdk invalidPublicKeyError), [], s⟩
  | some toPublicKey =>
  match env.getOrCreateAssociatedTokenAccount s.wallet mint userWallet.publicKey with
  | .error e =>
      ⟨.error (.sdk e),
       [.getOrCreateAssociatedTokenAccount s.wallet mint userWallet.publicKey], s⟩
  | .ok fromTokenAccount =>
  match env.getOrCreateAssociatedTokenAccount s.wallet mint toPublicKey with
  | .error e =>
      ⟨.error (.sdk e),
       [.getOrCreateAssociatedTokenAccount s.wallet mint userWallet.publicKey,
        .getOrCreateAssociatedTokenAccount s.wallet mint toPublicKey], s⟩
  | .ok toTokenAccount =>
  match env.getMint mint with
  | .error e =>
      ⟨.error (.sdk e),
       [.getOrCreateAssociatedTokenAccount s.wallet mint userWallet.publicKey,
        .getOrCreateAssociatedTokenAccount s.wallet mint toPublicKey, .getMint mint], s⟩
  | .ok mintInfo =>
    let adjustedAmount := amount * 10 ^ mintInfo.decimals
    match env.transferCall fromTokenAccount.address toTokenAccount.address
        userWallet.publicKey adjustedAmount [userWallet] with
    | .error e =>
        ⟨.error (.sdk e),
         [.getOrCreateAssociatedTokenAccount s.wallet mint userWallet.publicKey,
          .getOrCreateAssociatedTokenAccount s.wallet mint toPublicKey, .getMint mint,
          .transfer fromTokenAccount.address toTokenAccount.address userWallet.publicKey
            adjustedAmount [userWallet]], s⟩
    | .ok tx =>
      match env.confirmTransaction tx "finalized" with
      | .error e =>
          ⟨.error (.sdk e),
           [.getOrCreateAssociatedTokenAccount s.wallet mint userWallet.publicKey,
            .getOrCreateAssociatedTokenAccount s.wallet mint toPublicKey, .getMint mint,
            .transfer fromTokenAccount.address toTokenAccount.address userWallet.publicKey
              adjustedAmount [userWallet],
            .confirmTransaction tx "finalized"], s⟩
      | .ok _ =>
          ⟨.ok tx,
           [.getOrCreateAssociatedTokenAccount s.wallet mint userWallet.publicKey,
            .getOrCreateAssociatedTokenAccount s.wallet mint toPublicKey, .getMint mint,
            .transfer fromTokenAccount.address toTokenAccount.address userWallet.publicKey
              adjustedAmount [userWallet],
            .confirmTransaction tx "finalized"], s⟩

/-- Recogniser for transaction-submission events. -/
def isSendTx : Event → Bool
  | .sendAndConfirmTransaction _ _ => true
  | _ => false

/-! ## Concrete instances used to exercise the operations -/

/-- A concrete stand-in for the SDK cryptography: public keys are 32 zero
bytes and base58 coding stores each byte as one character. -/
def cW : Crypto :=
  { derive := fun _ => List.replicate 32 0,
    b58encode := fun b => String.mk (b.map Char.ofNat),
    b58decode := fun t => some (t.data.map Char.toNat) }

/-- A concrete 32-byte seed. -/
def seedW : Bytes := List.replicate 32 1

/-- A second concrete seed, for mint generation. -/
def seedM : Bytes := List.replicate 32 3

/-- The keypair generated from `seedW` under `cW`. -/
def kpW : Keypair := Keypair.generate cW seedW

/-- An empty filesystem: no wallet file yet. -/
def fs0 : Fs := fun _ => none

/-- The service the constructor builds over `fs0` with randomness `seedW`. -/
def svc0 : Service :=
  { connectionUrl := "devnet", commitment := "confirmed",
    walletFilePath := "solWallet.json", mainNet := false, wallet := kpW }

/-- The filesystem after that construction persisted the wallet. -/
def fsAfter : Fs :=
  fun p => if p = "solWallet.json" then some (walletJsonEncode kpW) else none

/-- A service value used as the receiver of the chain operations. -/
def svcW : Service := svc0

/-- A 32-character string decoding (under `cW`) to a 32-byte public key. -/
def addrW : String := String.mk (List.replicate 32 'M')

/-- Another such string, used as a recipient address. -/
def addr2W : String := String.mk (List.replicate 32 'N')

/-- A string decoding (under `cW`) to a valid 64-byte secret key. -/
def userKeyW : String :=
  String.mk (List.replicate 32 'A' ++ List.replicate 32 (Char.ofNat 0))

/-- A concrete chain oracle on which every call succeeds. -/
def envW : ChainEnv :=
  { minimumBalanceForRentExemption := fun _ => .ok 1000,
    sendTransaction := fun _ _ => .ok "sig1",
    getMint := fun _ => .ok ⟨6⟩,
    getOrCreateAssociatedTokenAccount := fun _ _ owner => .ok ⟨owner⟩,
    mintTo := fun _ _ _ _ _ => .ok "sigMint",
    burnCall := fun _ _ _ _ _ => .ok "sigBurn",
    transferCall := fun _ _ _ _ _ => .ok "sigTransfer",
    getBalance := fun _ => .ok 42,
    confirmTransaction := fun _ _ => .ok (),
    getTokenAccountsByOwner := fun _ _ =>
      .ok [⟨List.replicate 32 7, 123⟩, ⟨List.replicate 32 8, 456⟩],
    packLen := fun _ => 100,
    mintLenMetadataPointer := 234 }

/-- The same oracle, except that the balance query throws an SDK error. -/
def envFail : ChainEnv := { envW with getBalance := fun _ => .error ⟨"network error"⟩ }

/-- The same oracle, except that the rent-exemption query throws an SDK
error. -/
def envFail2 : ChainEnv :=
  { envW with minimumBalanceForRentExemption := fun _ => .error ⟨"rpc down"⟩ }

/-! ## Basic lemmas -/

theorem asBytesAux_map_num (l : List Nat) :
    Json.asBytesAux (l.map Json.num) = some l := by
  induction l with
  | nil => rfl
  | cons a t ih => simp [Json.asBytesAux, ih]

theorem toUint8Array_eq_of_lt :
    ∀ (l : List Nat), (∀ b ∈ l, b < 256) → toUint8Array l = l := by
  intro l
  induction l with
  | nil => intro _; rfl
  | cons a t ih =>
    intro h
    have ha : a % 256 = a := Nat.mod_eq_of_lt (h a (by simp))
    have ht := ih (fun b hb => h b (by simp [hb]))
    simp only [toUint8Array, List.map_cons] at ht ⊢
    rw [ha, ht]

theorem loadWalletJson_encode (c : Crypto) (kp : Keypair)
    (hlen : kp.secretKey.length = 64)
    (hrange : ∀ b ∈ kp.secretKey, b < 256)
    (hvalid : kp.secretKey.drop 32 = c.derive (kp.secretKey.take 32)) :
    loadWalletJson c (walletJsonEncode kp) = some kp := by
  unfold loadWalletJson walletJsonEncode
  simp [Json.lookup, List.lookup, Json.asBytes, asBytesAux_map_num,
    toUint8Array_eq_of_lt kp.secretKey hrange, Keypair.fromSecretKey, hlen, hvalid]

/-! ## Claims about wallet custody -/

/-- C3: on construction, an absent credential file makes the service generate
a keypair and persist exactly it to `solWallet.json` (and touch nothing
else), while a present file is loaded and nothing is written; the custodial
wallet is exactly the generated respectively loaded keypair. -/
theorem mkService_wallet_spec (c : Crypto) (fs : Fs) (seed : Bytes)
    (s : Service) (fs' : Fs) (h : mkService c fs seed = .ok (s, fs')) :
    (fs "solWallet.json" = none →
        s.wallet = Keypair.generate c seed ∧
        fs' "solWallet.json" = some (walletJsonEncode (Keypair.generate c seed)) ∧
        ∀ p, p ≠ "solWallet.json" → fs' p = fs p) ∧
    (∀ j, fs "solWallet.json" = some j →
        loadWalletJson c j = some s.wallet ∧ fs' = fs) := by
  unfold mkService getOrCreateWallet at h
  constructor
  · intro hnone
    rw [hnone] at h
    simp only [Except.ok.injEq, Prod.mk.injEq] at h
    obtain ⟨hs, hfs⟩ := h
    refine ⟨?_, ?_, ?_⟩
    · rw [← hs]
    · rw [← hfs]; simp
    · intro p hp; rw [← hfs]; simp [hp]
  · intro j hj
    rw [hj] at h
    dsimp only at h
    cases hl : loadWalletJson c j with
    | none => rw [hl] at h; cases h
    | some kp =>
      rw [hl] at h
      simp only [Except.ok.injEq, Prod.mk.injEq] at h
      obtain ⟨hs, hfs⟩ := h
      constructor
      · rw [← hs]
      · exact hfs.symm

theorem mkService_wallet_spec_witness :
    fs0 "solWallet.json" = none ∧ svc0.wallet = Keypair.generate cW seedW := by
  refine ⟨rfl, ?_⟩
  exact ((mkService_wallet_spec cW fs0 seedW svc0 fsAfter rfl).1 rfl).1

/-- C4: the credential file is a JSON object whose `privateKey` field is the
array of the secret key's bytes, and loading a file the service wrote
reconstructs the same keypair (write-then-load round trip). -/
theorem walletFile_write_then_load_roundtrip (c : Crypto) (kp : Keypair)
    (hlen : kp.secretKey.length = 64)
    (hrange : ∀ b ∈ kp.secretKey, b < 256)
    (hvalid : kp.secretKey.drop 32 = c.derive (kp.secretKey.take 32)) :
    walletJsonEncode kp = Json.obj [("privateKey", Json.arr (kp.secretKey.map Json.num))] ∧
    loadWalletJson c (walletJsonEncode kp) = some kp :=
  ⟨rfl, loadWalletJson_encode c kp hlen hrange hvalid⟩

theorem walletFile_write_then_load_roundtrip_witness :
    loadWalletJson cW (walletJsonEncode kpW) = some kpW :=
  (walletFile_write_then_load_roundtrip cW kpW (by decide) (by decide) (by decide)).2

/-- C9: `createWallet` returns an internally consistent pair: the base58
decoding of the returned private key is accepted by `fromSecretKey`, the
resulting keypair's base58-encoded public key is the returned address, and
the keypair is exactly the one generated from this call's fresh randomness. -/
theorem createWallet_keypair_consistent (c : Crypto) (seed : Bytes)
    (hseed : seed.length = 32) (hd : (c.derive seed).length = 32)
    (hrt : c.b58decode (c.b58encode (Keypair.generate c seed).secretKey) =
      some (Keypair.generate c seed).secretKey) :
    ∃ sk kp, c.b58decode (createWallet c seed).1 = some sk ∧
      Keypair.fromSecretKey c sk = some kp ∧
      c.b58encode kp.publicKey = (createWallet c seed).2 ∧
      kp = Keypair.generate c seed := by
  refine ⟨(Keypair.generate c seed).secretKey, Keypair.generate c seed, hrt, ?_, rfl, rfl⟩
  have h1 : (Keypair.generate c seed).secretKey.drop 32 = c.derive seed := by
    show (seed ++ c.derive seed).drop 32 = c.derive seed
    rw [← hseed]
    exact List.drop_left seed (c.derive seed)
  have h2 : (Keypair.generate c seed).secretKey.take 32 = seed := by
    show (seed ++ c.derive seed).take 32 = seed
    rw [← hseed]
    exact List.take_left seed (c.derive seed)
  have h3 : (Keypair.generate c seed).secretKey.length = 64 := by
    show (seed ++ c.derive seed).length = 64
    rw [List.length_append, hseed, hd]
  unfold Keypair.fromSecretKey
  rw [if_pos ⟨h3, by rw [h1, h2]⟩]

theorem createWallet_keypair_consistent_witness :
    ∃ sk kp, cW.b58decode (createWallet cW seedW).1 = some sk ∧
      Keypair.fromSecretKey cW sk = some kp ∧
      cW.b58encode kp.publicKey = (createWallet cW seedW).2 ∧
      kp = Keypair.generate cW seedW :=
  createWallet_keypair_consistent cW seedW (by decide) (by decide) (by decide)

/-! ## Frame: no operation modifies the service object -/

theorem deployTokenContract_self (c : Crypto) (env : ChainEnv) (s : Service)
    (a b d : String) (ms : Bytes) : (deployTokenContract c env s a b d ms).self = s := by
  simp only [deployTokenContract]
  repeat' split
  all_goals rfl

theorem getTokenInstanceAndDecimals_self (c : Crypto) (env : ChainEnv) (s : Service)
    (ta : String) : (getTokenInstanceAndDecimals c env s ta).self = s := by
  simp only [getTokenInstanceAndDecimals]
  repeat' split
  all_goals rfl

theorem getSolBalance_self (env : ChainEnv) (s : Service) :
    (getSolBalance env s).self = s := by
  simp only [getSolBalance]
  repeat' split
  all_goals rfl

theorem mintTokensToUser_self (c : Crypto) (env : ChainEnv) (s : Service)
    (ta toa : String) (amount : Nat) : (mintTokensToUser c env s ta toa amount).self = s := by
  simp only [mintTokensToUser]
  repeat' split
  all_goals rfl

theorem burnTokensFromUser_self (c : Crypto) (env : ChainEnv) (s : Service)
    (ta w : String) (amount : Nat) : (burnTokensFromUser c env s ta w amount).self = s := by
  simp only [burnTokensFromUser]
  repeat' split
  all_goals rfl

theorem transferTokens_self (c : Crypto) (env : ChainEnv) (s : Service)
    (ta toa : String) (amount : Nat) (w : String) :
    (transferTokens c env s ta toa amount w).self = s := by
  simp only [transferTokens]
  repeat' split
  all_goals rfl

theorem getWalletTokenBalance_self (c : Crypto) (env : ChainEnv) (s : Service)
    (addr : String) : (getWalletTokenBalance c env s addr).self = s := by
  simp only [getWalletTokenBalance]
  repeat' split
  all_goals rfl

/-- C7: after construction, no public operation modifies the service
object's fields: `connection`, `walletFilePath`, `mainNet` and `wallet` are
unchanged by every call of every operation (the whole `Service` value the
call ends with equals the one it started with). -/
theorem service_fields_frame (c : Crypto) (env : ChainEnv) (s : Service)
    (tokenName tokenSymbol image ta toa addr w : String) (amount : Nat)
    (mintSeed : Bytes) :
    (deployTokenContract c env s tokenName tokenSymbol image mintSeed).self = s ∧
    (getTokenInstanceAndDecimals c env s ta).self = s ∧
    (getSolBalance env s).self = s ∧
    (mintTokensToUser c env s ta toa amount).self = s ∧
    (burnTokensFromUser c env s ta w amount).self = s ∧
    (transferTokens c env s ta toa amount w).self = s ∧
    (getWalletTokenBalance c env s addr).self = s :=
  ⟨deployTokenContract_self c env s tokenName tokenSymbol image mintSeed,
   getTokenInstanceAndDecimals_self c env s ta,
   getSolBalance_self env s,
   mintTokensToUser_self c env s ta toa amount,
   burnTokensFromUser_self c env s ta w amount,
   transferTokens_self c env s ta toa amount w,
   getWalletTokenBalance_self c env s addr⟩

/-! ## Token deployment -/

/-- C1: every `deployTokenContract` call submits at most one transaction,
exactly one when it succeeds, and any transaction it submits consists of
exactly the five instructions, in order: mint account creation,
metadata-pointer initialization, mint initialization, metadata
initialization, metadata field update. -/
theorem deployTokenContract_single_atomic_tx (c : Crypto) (env : ChainEnv)
    (s : Service) (tokenName tokenSymbol image : String) (mintSeed : Bytes) :
    ((deployTokenContract c env s tokenName tokenSymbol image mintSeed).trace.countP
        isSendTx ≤ 1) ∧
    (∀ r, (deployTokenContract c env s tokenName tokenSymbol image mintSeed).result = .ok r →
      (deployTokenContract c env s tokenName tokenSymbol image mintSeed).trace.countP
        isSendTx = 1) ∧
    (∀ tx signers, Event.sendAndConfirmTransaction tx signers ∈
        (deployTokenContract c env s tokenName tokenSymbol image mintSeed).trace →
      ∃ lamports, tx.instructions = [
        Instruction.createAccount s.wallet.publicKey (Keypair.generate c mintSeed).publicKey
          env.mintLenMetadataPointer lamports TOKEN_2022_PROGRAM_ID,
        Instruction.initializeMetadataPointer (Keypair.generate c mintSeed).publicKey
          s.wallet.publicKey (Keypair.generate c mintSeed).publicKey TOKEN_2022_PROGRAM_ID,
        Instruction.initializeMint (Keypair.generate c mintSeed).publicKey 9
          s.wallet.publicKey s.wallet.publicKey TOKEN_2022_PROGRAM_ID,
        Instruction.initializeMetadata TOKEN_2022_PROGRAM_ID
          (Keypair.generate c mintSeed).publicKey s.wallet.publicKey
          (Keypair.generate c mintSeed).publicKey s.wallet.publicKey
          tokenName tokenSymbol image,
        Instruction.updateField TOKEN_2022_PROGRAM_ID (Keypair.generate c mintSeed).publicKey
          s.wallet.publicKey "description" "Only Possible On Solana"]) := by
  simp only [deployTokenContract]
  split
  · refine ⟨by simp [isSendTx], ?_, ?_⟩
    · intro r hr; cases hr
    · intro tx signers hmem
      simp [isSendTx] at hmem
  · split
    · refine ⟨by simp [isSendTx], ?_, ?_⟩
      · intro r hr; cases hr
      · intro tx signers hmem
        simp only [List.mem_cons, List.mem_singleton] at hmem
        rcases hmem with h | h | h
        · cases h
        · obtain ⟨htx, -⟩ := Event.sendAndConfirmTransaction.inj h
          exact ⟨_, by subst htx; rfl⟩
        · cases h
    · refine ⟨by simp [isSendTx], ?_, ?_⟩
      · intro r _; simp [isSendTx]
      · intro tx signers hmem
        simp only [List.mem_cons, List.mem_singleton] at hmem
        rcases hmem with h | h | h
        · cases h
        · obtain ⟨htx, -⟩ := Event.sendAndConfirmTransaction.inj h
          exact ⟨_, by subst htx; rfl⟩
        · cases h

theorem deployTokenContract_single_atomic_tx_witness :
    (deployTokenContract cW envW svcW "Tok" "TK" "uri" seedM).trace.countP isSendTx = 1 :=
  (deployTokenContract_single_atomic_tx cW envW svcW "Tok" "TK" "uri" seedM).2.1 _ rfl

/-- C6: a successful `deployTokenContract` call uses a mint keypair freshly
generated from this call's randomness (which also co-signs the transaction),
fixes decimals to 9, sets the custodial wallet as mint authority, freeze
authority and metadata update authority, attaches the given name, symbol and
image URI as metadata, and returns the new mint's base58-encoded address. -/
theorem deployTokenContract_registers_mint (c : Crypto) (env : ChainEnv)
    (s : Service) (tokenName tokenSymbol image : String) (mintSeed : Bytes)
    (addr : String)
    (h : (deployTokenContract c env s tokenName tokenSymbol image mintSeed).result = .ok addr) :
    addr = c.b58encode (Keypair.generate c mintSeed).publicKey ∧
    ∃ tx lamports,
      Event.sendAndConfirmTransaction tx [s.wallet, Keypair.generate c mintSeed] ∈
        (deployTokenContract c env s tokenName tokenSymbol image mintSeed).trace ∧
      Instruction.createAccount s.wallet.publicKey (Keypair.generate c mintSeed).publicKey
        env.mintLenMetadataPointer lamports TOKEN_2022_PROGRAM_ID ∈ tx.instructions ∧
      Instruction.initializeMint (Keypair.generate c mintSeed).publicKey 9
        s.wallet.publicKey s.wallet.publicKey TOKEN_2022_PROGRAM_ID ∈ tx.instructions ∧
      Instruction.initializeMetadata TOKEN_2022_PROGRAM_ID
        (Keypair.generate c mintSeed).publicKey s.wallet.publicKey
        (Keypair.generate c mintSeed).publicKey s.wallet.publicKey
        tokenName tokenSymbol image ∈ tx.instructions := by
  simp only [deployTokenContract] at h ⊢
  split at h
  · cases h
  · rename_i lamports hmin
    split at h
    · cases h
    · rename_i sig hsend
      obtain rfl := Except.ok.inj h
      refine ⟨rfl, _, lamports,
        List.mem_cons_of_mem _ (List.mem_cons_self _ _), by simp, by simp, by simp⟩

theorem deployTokenContract_registers_mint_witness :
    ∃ tx lamports,
      Event.sendAndConfirmTransaction tx [svcW.wallet, Keypair.generate cW seedM] ∈
        (deployTokenContract cW envW svcW "Tok2" "T2" "uri2" seedM).trace ∧
      Instruction.createAccount svcW.wallet.publicKey (Keypair.generate cW seedM).publicKey
        envW.mintLenMetadataPointer lamports TOKEN_2022_PROGRAM_ID ∈ tx.instructions ∧
      Instruction.initializeMint (Keypair.generate cW seedM).publicKey 9
        svcW.wallet.publicKey svcW.wallet.publicKey TOKEN_2022_PROGRAM_ID ∈ tx.instructions ∧
      Instruction.initializeMetadata TOKEN_2022_PROGRAM_ID
        (Keypair.generate cW seedM).publicKey svcW.wallet.publicKey
        (Keypair.generate cW seedM).publicKey svcW.wallet.publicKey
        "Tok2" "T2" "uri2" ∈ tx.instructions :=
  (deployTokenContract_registers_mint cW envW svcW "Tok2" "T2" "uri2" seedM _ rfl).2

/-! ## Amount scaling -/

theorem mintTo_amount_scaled (c : Crypto) (env : ChainEnv) (s : Service)
    (ta toa : String) (amount : Nat) :
    ∀ m d a amt sg, Event.mintTo m d a amt sg ∈ (mintTokensToUser c env s ta toa amount).trace →
      ∃ mi, env.getMint m = .ok mi ∧ amt = amount * 10 ^ mi.decimals := by
  intro m d a amt sg hmem
  simp only [mintTokensToUser] at hmem
  repeat' split at hmem
  all_goals simp_all

theorem burn_amount_scaled (c : Crypto) (env : ChainEnv) (s : Service)
    (ta w : String) (amount : Nat) :
    ∀ acc m ow amt sg, Event.burn acc m ow amt sg ∈ (burnTokensFromUser c env s ta w amount).trace →
      ∃ mi, env.getMint m = .ok mi ∧ amt = amount * 10 ^ mi.decimals := by
  intro acc m ow amt sg hmem
  simp only [burnTokensFromUser] at hmem
  repeat' split at hmem
  all_goals simp_all

theorem transfer_amount_scaled (c : Crypto) (env : ChainEnv) (s : Service)
    (ta toa : String) (amount : Nat) (w : String) :
    ∀ src dst ow amt sg, Event.transfer src dst ow amt sg ∈
        (transferTokens c env s ta toa amount w).trace →
      ∃ mint mi, pubKeyFromBase58 c ta = some mint ∧ env.getMint mint = .ok mi ∧
        amt = amount * 10 ^ mi.decimals := by
  intro src dst ow amt sg hmem
  simp only [transferTokens] at hmem
  repeat' split at hmem
  all_goals simp_all

/-- C5: in `mintTokensToUser`, `burnTokensFromUser` and `transferTokens`,
the amount handed to the SDK's mint/burn/transfer call is the caller's
amount multiplied by 10 to the decimals fetched from the target mint's
on-chain info. -/
theorem amounts_scaled_by_decimals (c : Crypto) (env : ChainEnv) (s : Service)
    (ta toa w : String) (amount : Nat) :
    (∀ m d a amt sg, Event.mintTo m d a amt sg ∈
        (mintTokensToUser c env s ta toa amount).trace →
      ∃ mi, env.getMint m = .ok mi ∧ amt = amount * 10 ^ mi.decimals) ∧
    (∀ acc m ow amt sg, Event.burn acc m ow amt sg ∈
        (burnTokensFromUser c env s ta w amount).trace →
      ∃ mi, env.getMint m = .ok mi ∧ amt = amount * 10 ^ mi.decimals) ∧
    (∀ src dst ow amt sg, Event.transfer src dst ow amt sg ∈
        (transferTokens c env s ta toa amount w).trace →
      ∃ mint mi, pubKeyFromBase58 c ta = some mint ∧ env.getMint mint = .ok mi ∧
        amt = amount * 10 ^ mi.decimals) :=
  ⟨mintTo_amount_scaled c env s ta toa amount,
   burn_amount_scaled c env s ta w amount,
   transfer_amount_scaled c env s ta toa amount w⟩

theorem amounts_scaled_by_decimals_witness :
    ∃ mi, envW.getMint (List.replicate 32 77) = .ok mi ∧ 5000000 = 5 * 10 ^ mi.decimals :=
  (amounts_scaled_by_decimals cW envW svcW addrW addr2W userKeyW 5).1
    (List.replicate 32 77) (List.replicate 32 78) svcW.wallet.publicKey 5000000
    [svcW.wallet] (by decide)

/-! ## Balance listing -/

/-- C10: `getWalletTokenBalance` returns one entry per Token-2022 token
account owned by the address, pairing the mint's base58 address with the
account's raw on-chain amount (no division by 10 to the mint's decimals),
and makes only the one account-listing SDK call. -/
theorem getWalletTokenBalance_raw_amounts (c : Crypto) (env : ChainEnv)
    (s : Service) (addr : String) (owner : Bytes) (accts : List AccountData)
    (hk : pubKeyFromBase58 c addr = some owner)
    (hq : env.getTokenAccountsByOwner owner TOKEN_2022_PROGRAM_ID = .ok accts) :
    (getWalletTokenBalance c env s addr).result =
      .ok (accts.map fun a => (c.b58encode a.mint, a.amount)) ∧
    (getWalletTokenBalance c env s addr).trace =
      [Event.getTokenAccountsByOwner owner TOKEN_2022_PROGRAM_ID] := by
  simp [getWalletTokenBalance, hk, hq]

theorem getWalletTokenBalance_raw_amounts_witness :
    (getWalletTokenBalance cW envW svcW addrW).result =
      .ok (([⟨List.replicate 32 7, 123⟩, ⟨List.replicate 32 8, 456⟩] : List AccountData).map
        fun a => (cW.b58encode a.mint, a.amount)) :=
  (getWalletTokenBalance_raw_amounts cW envW svcW addrW (List.replicate 32 77)
    [⟨List.replicate 32 7, 123⟩, ⟨List.replicate 32 8, 456⟩] (by decide) rfl).1

/-! ## Error propagation -/

/-- C2 counterexample: when the SDK's balance query throws a plain SDK error,
`getSolBalance` re-throws that very error, which is not an object carrying a
message and an HTTP-like status code. -/
theorem sdk_error_not_rewrapped_counterexample :
    (getSolBalance envFail svcW).result = .error (.sdk ⟨"network error"⟩) ∧
    ∀ m st, (getSolBalance envFail svcW).result ≠ .error (.http m st) := by
  refine ⟨rfl, ?_⟩
  intro m st h
  rw [show (getSolBalance envFail svcW).result = .error (.sdk ⟨"network error"⟩) from
    rfl] at h
  exact ServiceError.noConfusion (Except.error.inj h)

theorem deployTokenContract_no_http (c : Crypto) (env : ChainEnv) (s : Service)
    (a b d : String) (ms : Bytes) :
    ∀ m st, (deployTokenContract c env s a b d ms).result ≠ .error (.http m st) := by
  intro m st h
  simp only [deployTokenContract] at h
  repeat' split at h
  all_goals simp_all

theorem getTokenInstanceAndDecimals_no_http (c : Crypto) (env : ChainEnv) (s : Service)
    (ta : String) :
    ∀ m st, (getTokenInstanceAndDecimals c env s ta).result ≠ .error (.http m st) := by
  intro m st h
  simp only [getTokenInstanceAndDecimals] at h
  repeat' split at h
  all_goals simp_all

theorem getSolBalance_no_http (env : ChainEnv) (s : Service) :
    ∀ m st, (getSolBalance env s).result ≠ .error (.http m st) := by
  intro m st h
  simp only [getSolBalance] at h
  repeat' split at h
  all_goals simp_all

theorem mintTokensToUser_no_http (c : Crypto) (env : ChainEnv) (s : Service)
    (ta toa : String) (amount : Nat) :
    ∀ m st, (mintTokensToUser c env s ta toa amount).result ≠ .error (.http m st) := by
  intro m st h
  simp only [mintTokensToUser] at h
  repeat' split at h
  all_goals simp_all

theorem getWalletTokenBalance_no_http (c : Crypto) (env : ChainEnv) (s : Service)
    (addr : String) :
    ∀ m st, (getWalletTokenBalance c env s addr).result ≠ .error (.http m st) := by
  intro m st h
  simp only [getWalletTokenBalance] at h
  repeat' split at h
  all_goals simp_all

theorem burnTokensFromUser_http_only_400 (c : Crypto) (env : ChainEnv) (s : Service)
    (ta w : String) (amount : Nat) :
    ∀ m st, (burnTokensFromUser c env s ta w amount).result = .error (.http m st) →
      m = "Invalid secret key provided for burnTokensFromUser" ∧ st = 400 := by
  intro m st h
  simp only [burnTokensFromUser] at h
  repeat' split at h
  all_goals simp_all

theorem transferTokens_http_only_400 (c : Crypto) (env : ChainEnv) (s : Service)
    (ta toa : String) (amount : Nat) (w : String) :
    ∀ m st, (transferTokens c env s ta toa amount w).result = .error (.http m st) →
      m = "Invalid secret key provided for transferTokens" ∧ st = 400 := by
  intro m st h
  simp only [transferTokens] at h
  repeat' split at h
  all_goals simp_all

/-- C2 amended: every error raised by the wrapped SDK during any of the
seven public operations surfaces as that same error, unchanged — the catch
blocks (where they exist) log and re-throw the original error rather than
wrapping it into a message/status object.  Stated per SDK call site of every
operation, together with the full-scope converse: no operation ever surfaces
a message/status object for an SDK error — `deployTokenContract`,
`getTokenInstanceAndDecimals`, `getSolBalance`, `mintTokensToUser` and
`getWalletTokenBalance` never throw one at all, and the only message/status
objects `burnTokensFromUser` and `transferTokens` can throw are their own
invalid-secret-key status-400 checks. -/
theorem sdk_errors_propagate_unchanged (c : Crypto) (env : ChainEnv) (s : Service)
    (tokenName tokenSymbol image ta toa addr w : String) (amount : Nat)
    (mintSeed : Bytes) (e : SdkError) :
    ((∀ n, env.minimumBalanceForRentExemption n = .error e) →
      (deployTokenContract c env s tokenName tokenSymbol image mintSeed).result =
        .error (.sdk e)) ∧
    (∀ lamports,
      env.minimumBalanceForRentExemption
        (env.mintLenMetadataPointer + (TYPE_SIZE + LENGTH_SIZE) +
          env.packLen
            { updateAuthority := s.wallet.publicKey,
              mint := (Keypair.generate c mintSeed).publicKey, name := tokenName,
              symbol := tokenSymbol, uri := image,
              additionalMetadata := [("description", "Only Possible On Solana")] }) =
        .ok lamports →
      env.sendTransaction
        ⟨[Instruction.createAccount s.wallet.publicKey
            (Keypair.generate c mintSeed).publicKey env.mintLenMetadataPointer lamports
            TOKEN_2022_PROGRAM_ID,
          Instruction.initializeMetadataPointer (Keypair.generate c mintSeed).publicKey
            s.wallet.publicKey (Keypair.generate c mintSeed).publicKey TOKEN_2022_PROGRAM_ID,
          Instruction.initializeMint (Keypair.generate c mintSeed).publicKey 9
            s.wallet.publicKey s.wallet.publicKey TOKEN_2022_PROGRAM_ID,
          Instruction.initializeMetadata TOKEN_2022_PROGRAM_ID
            (Keypair.generate c mintSeed).publicKey s.wallet.publicKey
            (Keypair.generate c mintSeed).publicKey s.wallet.publicKey
            tokenName tokenSymbol image,
          Instruction.updateField TOKEN_2022_PROGRAM_ID
            (Keypair.generate c mintSeed).publicKey s.wallet.publicKey
            "description" "Only Possible On Solana"]⟩
        [s.wallet, Keypair.generate c mintSeed] = .error e →
      (deployTokenContract c env s tokenName tokenSymbol image mintSeed).result =
        .error (.sdk e)) ∧
    (∀ m st, (deployTokenContract c env s tokenName tokenSymbol image mintSeed).result ≠
      .error (.http m st)) ∧
    (∀ mint, pubKeyFromBase58 c ta = some mint → env.getMint mint = .error e →
      (getTokenInstanceAndDecimals c env s ta).result = .error (.sdk e)) ∧
    (∀ m st, (getTokenInstanceAndDecimals c env s ta).result ≠ .error (.http m st)) ∧
    (env.getBalance s.wallet.publicKey = .error e →
      (getSolBalance env s).result = .error (.sdk e)) ∧
    (∀ m st, (getSolBalance env s).result ≠ .error (.http m st)) ∧
    (∀ mint toPub, pubKeyFromBase58 c ta = some mint → pubKeyFromBase58 c toa = some toPub →
      env.getOrCreateAssociatedTokenAccount s.wallet mint toPub = .error e →
      (mintTokensToUser c env s ta toa amount).result = .error (.sdk e)) ∧
    (∀ mint toPub acct, pubKeyFromBase58 c ta = some mint →
      pubKeyFromBase58 c toa = some toPub →
      env.getOrCreateAssociatedTokenAccount s.wallet mint toPub = .ok acct →
      env.getMint mint = .error e →
      (mintTokensToUser c env s ta toa amount).result = .error (.sdk e)) ∧
    (∀ mint toPub acct mi, pubKeyFromBase58 c ta = some mint →
      pubKeyFromBase58 c toa = some toPub →
      env.getOrCreateAssociatedTokenAccount s.wallet mint toPub = .ok acct →
      env.getMint mint = .ok mi →
      env.mintTo mint acct.address s.wallet.publicKey (amount * 10 ^ mi.decimals)
        [s.wallet] = .error e →
      (mintTokensToUser c env s ta toa amount).result = .error (.sdk e)) ∧
    (∀ mint toPub acct mi tx, pubKeyFromBase58 c ta = some mint →
      pubKeyFromBase58 c toa = some toPub →
      env.getOrCreateAssociatedTokenAccount s.wallet mint toPub = .ok acct →
      env.getMint mint = .ok mi →
      env.mintTo mint acct.address s.wallet.publicKey (amount * 10 ^ mi.decimals)
        [s.wallet] = .ok tx →
      env.confirmTransaction tx "finalized" = .error e →
      (mintTokensToUser c env s ta toa amount).result = .error (.sdk e)) ∧
    (∀ m st, (mintTokensToUser c env s ta toa amount).result ≠ .error (.http m st)) ∧
    (∀ sk kp mint, c.b58decode w = some sk → pubKeyFromBase58 c ta = some mint →
      Keypair.fromSecretKey c (toUint8Array sk) = some kp →
      env.getOrCreateAssociatedTokenAccount s.wallet mint kp.publicKey = .error e →
      (burnTokensFromUser c env s ta w amount).result = .error (.sdk e)) ∧
    (∀ sk kp mint acct, c.b58decode w = some sk → pubKeyFromBase58 c ta = some mint →
      Keypair.fromSecretKey c (toUint8Array sk) = some kp →
      env.getOrCreateAssociatedTokenAccount s.wallet mint kp.publicKey = .ok acct →
      env.getMint mint = .error e →
      (burnTokensFromUser c env s ta w amount).result = .error (.sdk e)) ∧
    (∀ sk kp mint acct mi, c.b58decode w = some sk → pubKeyFromBase58 c ta = some mint →
      Keypair.fromSecretKey c (toUint8Array sk) = some kp →
      env.getOrCreateAssociatedTokenAccount s.wallet mint kp.publicKey = .ok acct →
      env.getMint mint = .ok mi →
      env.burnCall acct.address mint kp (amount * 10 ^ mi.decimals) [kp] = .error e →
      (burnTokensFromUser c env s ta w amount).result = .error (.sdk e)) ∧
    (∀ sk kp mint acct mi tx, c.b58decode w = some sk → pubKeyFromBase58 c ta = some mint →
      Keypair.fromSecretKey c (toUint8Array sk) = some kp →
      env.getOrCreateAssociatedTokenAccount s.wallet mint kp.publicKey = .ok acct →
      env.getMint mint = .ok mi →
      env.burnCall acct.address mint kp (amount * 10 ^ mi.decimals) [kp] = .ok tx →
      env.confirmTransaction tx "finalized" = .error e →
      (burnTokensFromUser c env s ta w amount).result = .error (.sdk e)) ∧
    (∀ m st, (burnTokensFromUser c env s ta w amount).result = .error (.http m st) →
      m = "Invalid secret key provided for burnTokensFromUser" ∧ st = 400) ∧
    (∀ sk kp mint toPub, c.b58decode w = some sk →
      Keypair.fromSecretKey c (toUint8Array sk) = some kp →
      pubKeyFromBase58 c ta = some mint → pubKeyFromBase58 c toa = some toPub →
      env.getOrCreateAssociatedTokenAccount s.wallet mint kp.publicKey = .error e →
      (transferTokens c env s ta toa amount w).result = .error (.sdk e)) ∧
    (∀ sk kp mint toPub fromAcct, c.b58decode w = some sk →
      Keypair.fromSecretKey c (toUint8Array sk) = some kp →
      pubKeyFromBase58 c ta = some mint → pubKeyFromBase58 c toa = some toPub →
      env.getOrCreateAssociatedTokenAccount s.wallet mint kp.publicKey = .ok fromAcct →
      env.getOrCreateAssociatedTokenAccount s.wallet mint toPub = .error e →
      (transferTokens c env s ta toa amount w).result = .error (.sdk e)) ∧
    (∀ sk kp mint toPub fromAcct toAcct, c.b58decode w = some sk →
      Keypair.fromSecretKey c (toUint8Array sk) = some kp →
      pubKeyFromBase58 c ta = some mint → pubKeyFromBase58 c toa = some toPub →
      env.getOrCreateAssociatedTokenAccount s.wallet mint kp.publicKey = .ok fromAcct →
      env.getOrCreateAssociatedTokenAccount s.wallet mint toPub = .ok toAcct →
      env.getMint mint = .error e →
      (transferTokens c env s ta toa amount w).result = .error (.sdk e)) ∧
    (∀ sk kp mint toPub fromAcct toAcct mi, c.b58decode w = some sk →
      Keypair.fromSecretKey c (toUint8Array sk) = some kp →
      pubKeyFromBase58 c ta = some mint → pubKeyFromBase58 c toa = some toPub →
      env.getOrCreateAssociatedTokenAccount s.wallet mint kp.publicKey = .ok fromAcct →
      env.getOrCreateAssociatedTokenAccount s.wallet mint toPub = .ok toAcct →
      env.getMint mint = .ok mi →
      env.transferCall fromAcct.address toAcct.address kp.publicKey
        (amount * 10 ^ mi.decimals) [kp] = .error e →
      (transferTokens c env s ta toa amount w).result = .error (.sdk e)) ∧
    (∀ sk kp mint toPub fromAcct toAcct mi tx, c.b58decode w = some sk →
      Keypair.fromSecretKey c (toUint8Array sk) = some kp →
      pubKeyFromBase58 c ta = some mint → pubKeyFromBase58 c toa = some toPub →
      env.getOrCreateAssociatedTokenAccount s.wallet mint kp.publicKey = .ok fromAcct →
      env.getOrCreateAssociatedTokenAccount s.wallet mint toPub = .ok toAcct →
      env.getMint mint = .ok mi →
      env.transferCall fromAcct.address toAcct.address kp.publicKey
        (amount * 10 ^ mi.decimals) [kp] = .ok tx →
      env.confirmTransaction tx "finalized" = .error e →
      (transferTokens c env s ta toa amount w).result = .error (.sdk e)) ∧
    (∀ m st, (transferTokens c env s ta toa amount w).result = .error (.http m st) →
      m = "Invalid secret key provided for transferTokens" ∧ st = 400) ∧
    (∀ owner, pubKeyFromBase58 c addr = some owner →
      env.getTokenAccountsByOwner owner TOKEN_2022_PROGRAM_ID = .error e →
      (getWalletTokenBalance c env s addr).result = .error (.sdk e)) ∧
    (∀ m st, (getWalletTokenBalance c env s addr).result ≠ .error (.http m st)) := by
  refine ⟨?_, ?_, deployTokenContract_no_http c env s tokenName tokenSymbol image mintSeed,
    ?_, getTokenInstanceAndDecimals_no_http c env s ta,
    ?_, getSolBalance_no_http env s,
    ?_, ?_, ?_, ?_, mintTokensToUser_no_http c env s ta toa amount,
    ?_, ?_, ?_, ?_, burnTokensFromUser_http_only_400 c env s ta w amount,
    ?_, ?_, ?_, ?_, ?_, transferTokens_http_only_400 c env s ta toa amount w,
    ?_, getWalletTokenBalance_no_http c env s addr⟩
  · intro hmin
    simp [deployTokenContract, hmin]
  · intro lamports h1 h2
    simp [deployTokenContract, h1, h2]
  · intro mint h1 h2
    simp [getTokenInstanceAndDecimals, h1, h2]
  · intro h1
    simp [getSolBalance, h1]
  · intro mint toPub h1 h2 h3
    simp [mintTokensToUser, h1, h2, h3]
  · intro mint toPub acct h1 h2 h3 h4
    simp [mintTokensToUser, h1, h2, h3, h4]
  · intro mint toPub acct mi h1 h2 h3 h4 h5
    simp [mintTokensToUser, h1, h2, h3, h4, h5]
  · intro mint toPub acct mi tx h1 h2 h3 h4 h5 h6
    simp [mintTokensToUser, h1, h2, h3, h4, h5, h6]
  · intro sk kp mint h1 h2 h3 h4
    simp [burnTokensFromUser, h1, h2, h3, h4]
  · intro sk kp mint acct h1 h2 h3 h4 h5
    simp [burnTokensFromUser, h1, h2, h3, h4, h5]
  · intro sk kp mint acct mi h1 h2 h3 h4 h5 h6
    simp [burnTokensFromUser, h1, h2, h3, h4, h5, h6]
  · intro sk kp mint acct mi tx h1 h2 h3 h4 h5 h6 h7
    simp [burnTokensFromUser, h1, h2, h3, h4, h5, h6, h7]
  · intro sk kp mint toPub h1 h2 h3 h4 h5
    simp [transferTokens, h1, h2, h3, h4, h5]
  · intro sk kp mint toPub fromAcct h1 h2 h3 h4 h5 h6
    simp [transferTokens, h1, h2, h3, h4, h5, h6]
  · intro sk kp mint toPub fromAcct toAcct h1 h2 h3 h4 h5 h6 h7
    simp [transferTokens, h1, h2, h3, h4, h5, h6, h7]
  · intro sk kp mint toPub fromAcct toAcct mi h1 h2 h3 h4 h5 h6 h7 h8
    simp [transferTokens, h1, h2, h3, h4, h5, h6, h7, h8]
  · intro sk kp mint toPub fromAcct toAcct mi tx h1 h2 h3 h4 h5 h6 h7 h8 h9
    simp [transferTokens, h1, h2, h3, h4, h5, h6, h7, h8, h9]
  · intro owner h1 h2
    simp [getWalletTokenBalance, h1, h2]

theorem sdk_errors_propagate_unchanged_witness :
    (deployTokenContract cW envFail2 svcW "N" "S" "U" seedM).result =
      .error (.sdk ⟨"rpc down"⟩) :=
  (sdk_errors_propagate_unchanged cW envFail2 svcW "N" "S" "U" addrW addr2W addrW
    userKeyW 5 seedM ⟨"rpc down"⟩).1 (fun _ => rfl)

/-! ## Early 400 on invalid user secret keys -/

/-- C8 counterexample: `burnTokensFromUser` parses the token address before
validating the user's secret key, so with an unparsable token address and an
invalid (but base58-decodable) secret key it throws the raw public-key SDK
error, not a status-400 object. -/
theorem burn_invalid_key_counterexample :
    cW.b58decode "A" = some [65] ∧
    Keypair.fromSecretKey cW (toUint8Array [65]) = none ∧
    (burnTokensFromUser cW envW svcW "" "A" 5).result = .error (.sdk invalidPublicKeyError) ∧
    ∀ m, (burnTokensFromUser cW envW svcW "" "A" 5).result ≠ .error (.http m 400) := by
  refine ⟨rfl, by decide, rfl, ?_⟩
  intro m h
  rw [show (burnTokensFromUser cW envW svcW "" "A" 5).result =
    .error (.sdk invalidPublicKeyError) from rfl] at h
  exact ServiceError.noConfusion (Except.error.inj h)

/-- C8 amended: when the base58-decoded wallet argument is not a valid secret
key, `transferTokens` always, and `burnTokensFromUser` provided its token
address parses as a valid public key, throw a message/status-400 object with
an empty SDK trace — in particular before any account-creating or
transaction-submitting SDK call, so no on-chain state is touched. -/
theorem invalid_secret_key_throws_400_before_sdk_calls (c : Crypto) (env : ChainEnv)
    (s : Service) (ta toa w : String) (amount : Nat) :
    (∀ sk mint, c.b58decode w = some sk → pubKeyFromBase58 c ta = some mint →
      Keypair.fromSecretKey c (toUint8Array sk) = none →
      burnTokensFromUser c env s ta w amount =
        ⟨.error (.http "Invalid secret key provided for burnTokensFromUser" 400), [], s⟩) ∧
    (∀ sk, c.b58decode w = some sk →
      Keypair.fromSecretKey c (toUint8Array sk) = none →
      transferTokens c env s ta toa amount w =
        ⟨.error (.http "Invalid secret key provided for transferTokens" 400), [], s⟩) := by
  constructor
  · intro sk mint h1 h2 h3
    simp [burnTokensFromUser, h1, h2, h3]
  · intro sk h1 h2
    simp [transferTokens, h1, h2]

theorem invalid_secret_key_throws_400_before_sdk_calls_witness :
    burnTokensFromUser cW envW svcW addrW "AB" 7 =
      ⟨.error (.http "Invalid secret key provided for burnTokensFromUser" 400), [], svcW⟩ :=
  (invalid_secret_key_throws_400_before_sdk_calls cW envW svcW addrW addr2W "AB" 7).1
    [65, 66] (List.replicate 32 77) rfl (by decide) (by decide)

end DICoint
